import Mathlib

/-!
# Verification of the Gemini-Cli-Python-Edition core

Shallow embedding of the three core components of the repository:

* `gemini_core/chat.py`  — `ChatSession.send_message`, the bounded multi-turn
  tool-calling loop (modelled by `sendLoop` / `send_message`);
* `gemini_core/tools.py` — `ToolRegistry.execute` / `get_tool_definitions`,
  the local/remote dispatch with the safe-mode confirmation gate;
* `gemini_core/mcp.py`   — `MCPClient.send_request` / `connect`, the JSON-RPC
  client with request-id assignment, the pending-request table and the
  connect handshake.

External effects (the model backend, the user's confirmation input, the
child process's replies, the write to the child's stdin) are passed in as
explicit parameters, so every definition is an executable function of the
code's state plus the environment's choices.  Python dynamic values are
modelled by the JSON-like type `JVal`; Python truthiness, `str()` rendering
and `dict.get` are modelled explicitly (`truthy`, `pyStr`, `pyGet`).
-/

namespace GeminiCli

/-- JSON-like values, the shape of everything that crosses the JSON-RPC
channel (`json.loads` output in `mcp.py`). -/
inductive JVal where
  | jnull : JVal
  | jbool : Bool → JVal
  | jnum  : Int → JVal
  | jstr  : String → JVal
  | jarr  : List JVal → JVal
  | jobj  : List (String × JVal) → JVal

/-- Python truthiness of a JSON value (`if result:` in the source):
`None`, `False`, `0`, `""`, `[]`, `{}` are falsy, everything else truthy. -/
def truthy : JVal → Bool
  | .jnull => false
  | .jbool b => b
  | .jnum n => n != 0
  | .jstr s => s != ""
  | .jarr l => !l.isEmpty
  | .jobj l => !l.isEmpty

/-- `d.get(k)` on a JSON object: `None` both when the key is absent and when
its value is JSON `null` (Python collapses the two). -/
def pyGet (o : List (String × JVal)) (k : String) : Option JVal :=
  match o.lookup k with
  | some .jnull => none
  | v => v

mutual
/-- Python `str()` of a JSON-shaped value (`repr`-style rendering, as used by
the `str(result)` fallbacks in `tools.py`).  Only the `None ↦ "None"` case is
load-bearing for the claims; the rest is a faithful-enough rendering. -/
def pyStr : JVal → String
  | .jnull => "None"
  | .jbool true => "True"
  | .jbool false => "False"
  | .jnum n => toString n
  | .jstr s => "\x27" ++ s ++ "\x27"
  | .jarr l => "[" ++ pyStrList l ++ "]"
  | .jobj l => "\x7b" ++ pyStrObj l ++ "\x7d"

def pyStrList : List JVal → String
  | [] => ""
  | [v] => pyStr v
  | v :: rest => pyStr v ++ ", " ++ pyStrList rest

def pyStrObj : List (String × JVal) → String
  | [] => ""
  | [(k, v)] => "\x27" ++ k ++ "\x27: " ++ pyStr v
  | (k, v) :: rest => "\x27" ++ k ++ "\x27: " ++ pyStr v ++ ", " ++ pyStrObj rest
end

/-- `str()` of a possibly-`None` call result (`str(result)` where `result`
may be Python `None`). -/
def pyStrOfResult : Option JVal → String
  | none => "None"
  | some v => pyStr v

/-- Rendering of a possibly-missing string (`f"Error: \x7bresponse.get('error')\x7d"`
prints `None` when the key is absent). -/
def pyShow : Option String → String
  | none => "None"
  | some s => s

/-- Python truthiness of an optional string (`if thought_sig:`). -/
def truthyStr : Option String → Bool
  | none => false
  | some s => s != ""

/-- Python `str.strip()`: drop whitespace from both ends. -/
def pyStrip (s : String) : String :=
  String.mk (((s.data.dropWhile Char.isWhitespace).reverse.dropWhile
    Char.isWhitespace).reverse)

/-- Python `str.lower()` (ASCII case folding suffices here). -/
def pyLower (s : String) : String := String.mk (s.data.map Char.toLower)

/-- `input(...).strip().lower()` — normalisation applied to the user's
confirmation answer in `ToolRegistry.execute`. -/
def pyNormalize (s : String) : String := pyLower (pyStrip s)

/-- Python `needle in hay` on strings: substring test. -/
def pyStrContains (needle hay : String) : Bool :=
  hay.data.tails.any fun t => needle.data.isPrefixOf t

/-! ## Conversation data model (`chat.py`) -/

/-- A tool call issued by the model: the `{"name": ..., "args": ...}` dict.
Arguments are an opaque keyword map (string-valued, which is all the local
catalog uses). -/
structure FunctionCall where
  name : String
  args : List (String × String)
deriving Repr, DecidableEq

/-- Python `repr` of the args dict, as interpolated into the
`[Running tool: name(args)]` stream line. -/
def argsRepr (args : List (String × String)) : String :=
  "\x7b" ++ String.intercalate ", "
    (args.map fun kv => "\x27" ++ kv.1 ++ "\x27: \x27" ++ kv.2 ++ "\x27") ++ "\x7d"

/-- One content part of a history turn, the tagged dicts built in
`send_message`: `{"text": ...}`, `{"inlineData": ...}`,
`{"functionCall": ..., "thoughtSignature"?: ...}`, `{"functionResponse": ...}`. -/
inductive Part where
  | text : String → Part
  | inlineData (mimeType : String) (data : Option String) : Part
  | functionCall (fc : FunctionCall) (thoughtSignature : Option String) : Part
  | functionResponse (name content : String) : Part
deriving Repr, DecidableEq

/-- One history entry: `{"role": ..., "parts": [...]}`. -/
structure Content where
  role : String
  parts : List Part
deriving Repr, DecidableEq

/-- The model backend's reply as consumed by `send_message`
(`client._request_generate` result): `success`, `text` (defaulted to `""`),
`function_calls` (absent collapsed to `[]`), `thought_signature`, `error`. -/
structure GenResponse where
  success : Bool
  text : String
  function_calls : List FunctionCall
  thought_signature : Option String
  error : Option String
deriving Repr

/-- A media item passed into `send_message`
(`{'mime_type': str, 'data': base64_str}` with `.get` defaults). -/
structure MediaItem where
  mime_type : Option String
  data : Option String
deriving Repr

/-- The user turn appended at the start of `send_message`: a text part plus
one `inlineData` part per media item (`mime_type` defaulted to
`image/jpeg`). -/
def userTurnOf (message : String) (media : List MediaItem) : Content :=
  { role := "user",
    parts := Part.text message ::
      media.map (fun m => Part.inlineData (m.mime_type.getD "image/jpeg") m.data) }

/-- `max_turns = 10` in `send_message`. -/
def max_turns : Nat := 10

/-- The result preview streamed after a tool runs:
`str(tool_result)[:200] + "..." if len(str(tool_result)) > 200 else str(tool_result)`. -/
def previewOf (s : String) : String :=
  if s.length > 200 then s.take 200 ++ "..." else s

/-- The stream-callback lines emitted while executing one round's function
calls, in order: a `[Running tool: ...]` line then a `[Result: ...]` line per
call. -/
def roundStreams (toolExec : String → List (String × String) → String)
    (fcs : List FunctionCall) : List String :=
  fcs.flatMap fun fc =>
    ["\n[Running tool: " ++ fc.name ++ "(" ++ argsRepr fc.args ++ ")]\n",
     "[Result: " ++ previewOf (toolExec fc.name fc.args) ++ "]\n"]

/-- Everything observable about one `send_message` call: the returned string,
the final history, the sequence of `stream_callback` invocations and the
number of calls made to the model backend. -/
structure SendResult where
  finalText : String
  history : List Content
  streamed : List String
  modelCalls : Nat
deriving Repr

/-- The model turn appended when a round returns function calls
(`fc_parts` in `send_message`): the round text as a leading part when
non-empty, then one `functionCall` part per call, each carrying the thought
signature when it is truthy. -/
def modelTurnOf (r : GenResponse) : Content :=
  { role := "model",
    parts := (if r.text != "" then [Part.text r.text] else [])
      ++ r.function_calls.map (fun fc => Part.functionCall fc
           (if truthyStr r.thought_signature then r.thought_signature else none)) }

/-- The user turn appended after a round's tools ran (`fr_parts` in
`send_message`): one `functionResponse` part per function call, in call
order, holding the stringified tool result. -/
def toolResponseTurnOf (toolExec : String → List (String × String) → String)
    (fcs : List FunctionCall) : Content :=
  { role := "user",
    parts := fcs.map (fun fc => Part.functionResponse fc.name (toolExec fc.name fc.args)) }

/-- The `while current_turn < max_turns` loop body of
`ChatSession.send_message`, with the remaining iteration budget as fuel.
`backend` is the model backend as a function of the full history sent to it
(`_generate_with_history`); `toolExec` is `registry.execute` (a string
result, as `str()`-ed into the `functionResponse` part).  Each iteration:
call the backend; on `success=False` return the formatted error; stream the
text if non-empty; with no function calls append the final model turn and
return the text; otherwise append the model turn, execute every call in
order (streaming a start line and a result preview per call), append one
user turn holding the `functionResponse` parts, and loop. -/
def sendLoop (backend : List Content → GenResponse)
    (toolExec : String → List (String × String) → String) :
    List Content → List String → Nat → Nat → SendResult
  | history, streamed, modelCalls, 0 =>
      { finalText := "Error: Max tool execution turns reached.",
        history := history, streamed := streamed, modelCalls := modelCalls }
  | history, streamed, modelCalls, fuel + 1 =>
      let response := backend history
      if response.success = false then
        { finalText := "Error: " ++ pyShow response.error,
          history := history, streamed := streamed, modelCalls := modelCalls + 1 }
      else
        let streamed1 := streamed ++ (if response.text != "" then [response.text] else [])
        if response.function_calls.isEmpty then
          { finalText := response.text,
            history := history ++ [{ role := "model", parts := [Part.text response.text] }],
            streamed := streamed1, modelCalls := modelCalls + 1 }
        else
          sendLoop backend toolExec
            (history ++ [modelTurnOf response,
                         toolResponseTurnOf toolExec response.function_calls])
            (streamed1 ++ roundStreams toolExec response.function_calls)
            (modelCalls + 1) fuel

/-- `ChatSession.send_message`: append the user turn, then run the bounded
tool-execution loop. -/
def send_message (backend : List Content → GenResponse)
    (toolExec : String → List (String × String) → String)
    (history0 : List Content) (message : String) (media : List MediaItem) :
    SendResult :=
  sendLoop backend toolExec (history0 ++ [userTurnOf message media]) [] 0 max_turns

/-- The function call carried by a part, if any. -/
def partFunctionCall : Part → Option FunctionCall
  | .functionCall fc _ => some fc
  | _ => none

/-- The `(name, content)` pair of a `functionResponse` part, if any. -/
def partFunctionResponse : Part → Option (String × String)
  | .functionResponse n r => some (n, r)
  | _ => none

/-- The function calls carried by a turn's parts, in order. -/
def functionCallsOf (c : Content) : List FunctionCall :=
  c.parts.filterMap partFunctionCall

/-- The `(name, content)` pairs of a turn's `functionResponse` parts, in
order. -/
def functionResponsesOf (c : Content) : List (String × String) :=
  c.parts.filterMap partFunctionResponse

/-! ## RPC client (`mcp.py`)

`MCPClient` holds `request_id`, `pending_requests` (request id → response
queue; modelled as the list of registered ids, in registration order),
`tools` (the raw tool dicts from `tools/list`) and `is_connected`.  We also
track whether the child process is running (`processAlive`): `connect` sets
it, only `close` clears it.

The environment of one request is (a) whether the `stdin.write` succeeds
(`writeOk`; a failure is the caught exception branch) and (b) the correlated
response object the reader thread delivers before the 10-second timeout
(`delivery`; `none` models `queue.Empty`, i.e. no correlated response in
time). -/

/-- The mutable state of one `MCPClient` object. -/
structure MCPState where
  request_id : Nat
  pending_requests : List Nat
  tools : List JVal
  is_connected : Bool
  processAlive : Bool

/-- A fresh `MCPClient.__init__` state. -/
def initMCP : MCPState :=
  { request_id := 0, pending_requests := [], tools := [],
    is_connected := false, processAlive := false }

/-- `resp_queue.get(timeout=10)` — the fixed wait bound, in seconds. -/
def REQUEST_TIMEOUT_SECONDS : Nat := 10

/-- The first half of `send_request`: increment `request_id`, take the new
value as the request id, and register the response slot in
`pending_requests` — all before any bytes are written. -/
def registerSlot (st : MCPState) : Nat × MCPState :=
  let reqId := st.request_id + 1
  (reqId,
   { st with request_id := reqId,
             pending_requests := st.pending_requests ++ [reqId] })

/-- The second half of `send_request`: write the request line (a failure is
caught and returns `None` with the slot left registered), then block on the
slot.  A correlated response within the timeout deletes the slot and yields
`None` on an `\x22error\x22` member, else the `\x22result\x22` member; `queue.Empty`
(no response within `REQUEST_TIMEOUT_SECONDS`) returns `None` with the slot
left registered. -/
def resolveSlot (st : MCPState) (reqId : Nat) (writeOk : Bool)
    (delivery : Option (List (String × JVal))) : MCPState × Option JVal :=
  if writeOk = false then (st, none)
  else
    match delivery with
    | none => (st, none)
    | some resp =>
        let st2 := { st with pending_requests := st.pending_requests.erase reqId }
        if (resp.lookup "error").isSome then (st2, none)
        else (st2, match pyGet resp "result" with
                   | some v => some v
                   | none => none)

/-- `MCPClient.send_request`: assign the next id, register the slot, write,
wait.  Returns the new client state and the `result` member of the
correlated response (`None` on write failure, timeout, or error response). -/
def send_request (st : MCPState) (writeOk : Bool)
    (delivery : Option (List (String × JVal))) : MCPState × Option JVal :=
  resolveSlot (registerSlot st).2 (registerSlot st).1 writeOk delivery

/-- `MCPClient._refresh_tools`: issue `tools/list`, then run
`if result and "tools" in result: self.tools = result["tools"]`.  The second
component records whether that line raised (a `TypeError` the caller's
`except` will catch): `"tools" in result` raises on a truthy non-iterable
result (number, boolean), and `result["tools"]` raises on a string
containing `"tools"` as a substring and on a list containing the element
`"tools"` (string and list indices must be integers); a falsy or absent
result, a string/list without such an occurrence, and a dict are raise-free.
On a dict whose `"tools"` member is an array the tool list is replaced; the
source assigns a non-array `"tools"` member verbatim too (no raise there) —
that value is outside our `List`-typed tool state and the old list is kept,
which leaves `connect`'s return and every flag unaffected. -/
def refresh_tools (st : MCPState) (writeOk : Bool)
    (delivery : Option (List (String × JVal))) : MCPState × Bool :=
  match (send_request st writeOk delivery).2 with
  | none => ((send_request st writeOk delivery).1, false)
  | some r =>
      if truthy r then
        match r with
        | .jobj o =>
            match o.lookup "tools" with
            | some (.jarr ts) =>
                ({ (send_request st writeOk delivery).1 with tools := ts }, false)
            | _ => ((send_request st writeOk delivery).1, false)
        | .jstr s => ((send_request st writeOk delivery).1, pyStrContains "tools" s)
        | .jarr l => ((send_request st writeOk delivery).1,
            l.any fun v => match v with
              | .jstr s => s == "tools"
              | _ => false)
        | _ => ((send_request st writeOk delivery).1, true)
      else ((send_request st writeOk delivery).1, false)

/-- The environment of one `connect` call: whether the process spawn
succeeds, and the write/delivery outcomes of the `initialize` and
`tools/list` requests. -/
structure ConnectEnv where
  spawnOk : Bool
  initWriteOk : Bool
  initDelivery : Option (List (String × JVal))
  toolsWriteOk : Bool
  toolsDelivery : Option (List (String × JVal))

/-- What one `connect` call produces: the new client state, the boolean the
method returns, and (instrumentation) the request ids its internal
`send_request` calls consumed. -/
structure ConnectOut where
  state : MCPState
  ok : Bool
  ids : List Nat

/-- `MCPClient.connect`: spawn the child (a spawn failure is the caught
exception branch, returning `False`), send `initialize`; on a truthy result
send the `notifications/initialized` notification (no id, no client-state
change), set `is_connected := true`, then `_refresh_tools` (`tools/list`),
and return `True` — note `is_connected` is set before `tools/list` is
issued, and neither a `tools/list` failure nor a raise while parsing its
result resets it.  If `_refresh_tools` raises (see `refresh_tools`), the
`except` branch catches it and returns `False`, with `is_connected` left
`true`.  A falsy or missing `initialize` result returns `False`. -/
def connect (st : MCPState) (env : ConnectEnv) : ConnectOut :=
  if env.spawnOk = false then { state := st, ok := false, ids := [] }
  else
    let stp : MCPState := { st with processAlive := true }
    let id1 := stp.request_id + 1
    let st1 := (send_request stp env.initWriteOk env.initDelivery).1
    match (send_request stp env.initWriteOk env.initDelivery).2 with
    | some r =>
        if truthy r then
          let st2 : MCPState := { st1 with is_connected := true }
          let id2 := st2.request_id + 1
          let st3 := (refresh_tools st2 env.toolsWriteOk env.toolsDelivery).1
          if (refresh_tools st2 env.toolsWriteOk env.toolsDelivery).2 then
            { state := st3, ok := false, ids := [id1, id2] }
          else
            { state := st3, ok := true, ids := [id1, id2] }
        else { state := st1, ok := false, ids := [id1] }
    | none => { state := st1, ok := false, ids := [id1] }

/-- `MCPClient.call_tool`: a `tools/call` request.  The method name and
params only shape the bytes written to the child's stdin; the client-state
transition and response correlation are exactly those of `send_request`. -/
def call_tool (st : MCPState) (writeOk : Bool)
    (delivery : Option (List (String × JVal)))
    (_name : String) (_arguments : List (String × String)) :
    MCPState × Option JVal :=
  send_request st writeOk delivery

/-- `MCPClient.close`: terminate the child process. -/
def close (st : MCPState) : MCPState := { st with processAlive := false }

/-- One id-consuming operation on a connection object, with its
environment. -/
inductive MCPOp where
  | send (writeOk : Bool) (delivery : Option (List (String × JVal)))
  | connectOp (env : ConnectEnv)

/-- Run one operation, returning the new state and the request ids it
assigned (in the order they were assigned). -/
def runOp (st : MCPState) : MCPOp → MCPState × List Nat
  | .send w d => ((send_request st w d).1, [st.request_id + 1])
  | .connectOp env => let out := connect st env; (out.state, out.ids)

/-- Run a sequence of operations on one connection object, collecting every
request id assigned over its lifetime. -/
def runOps (st : MCPState) : List MCPOp → MCPState × List Nat
  | [] => (st, [])
  | op :: rest =>
      ((runOps (runOp st op).1 rest).1,
       (runOp st op).2 ++ (runOps (runOp st op).1 rest).2)

/-! ## Tool registry (`tools.py`) -/

/-- The `\x22name\x22` member of a discovered tool dict, when it is a string
(the shape `execute` compares against `tool_name`). -/
def toolName : JVal → Option String
  | .jobj o =>
      match o.lookup "name" with
      | some (.jstr s) => some s
      | _ => none
  | _ => none

/-- Whether a connection's discovered tool list contains a tool of the given
name. -/
def hasTool (st : MCPState) (name : String) : Bool :=
  st.tools.any (fun t => toolName t == some name)

/-- One exported tool definition (name, description, parameter schema). -/
structure ToolDef where
  name : String
  description : String
  parameters : JVal

/-- `MCPClient.get_tool_definitions`: map each discovered tool dict to the
export shape (`description` defaulted to `\x22\x22`, `inputSchema` to `\x7b\x7d`;
non-string values of these members are abstracted to the defaults). -/
def mcpToolDef (t : JVal) : ToolDef :=
  { name := (toolName t).getD "",
    description :=
      match t with
      | .jobj o => (match o.lookup "description" with
                    | some (.jstr s) => s
                    | _ => "")
      | _ => "",
    parameters :=
      match t with
      | .jobj o => (o.lookup "inputSchema").getD (.jobj [])
      | _ => .jobj [] }

def mcp_get_tool_definitions (st : MCPState) : List ToolDef :=
  st.tools.map mcpToolDef

/-- A registered local tool: its name (the dict key, `func.__name__`) and
its docstring (`\x22\x22` models a missing or empty one — both falsy). -/
structure LocalTool where
  name : String
  doc : String

/-- The `ToolRegistry` state: the local tool table (insertion order) and the
registered MCP clients (registration order). -/
structure Registry where
  localTools : List LocalTool
  clients : List MCPState

def Registry.localNames (reg : Registry) : List String :=
  reg.localTools.map (·.name)

/-- `ToolRegistry._get_params_schema`: the hand-written parameter schemas of
the local catalog (the default empty-object schema for unknown names). -/
def get_params_schema (func_name : String) : JVal :=
  if func_name = "read_file" then
    .jobj [("type", .jstr "OBJECT"),
           ("properties", .jobj [("filepath", .jobj
              [("type", .jstr "STRING"),
               ("description", .jstr "Path absolut atau relatif ke file yang akan dibaca")])]),
           ("required", .jarr [.jstr "filepath"])]
  else if func_name = "write_file" then
    .jobj [("type", .jstr "OBJECT"),
           ("properties", .jobj
              [("filepath", .jobj [("type", .jstr "STRING"),
                 ("description", .jstr "Path absolut atau relatif untuk file baru")]),
               ("content", .jobj [("type", .jstr "STRING"),
                 ("description", .jstr "Isi text yang akan ditulis ke file")])]),
           ("required", .jarr [.jstr "filepath", .jstr "content"])]
  else if func_name = "list_directory" then
    .jobj [("type", .jstr "OBJECT"),
           ("properties", .jobj [("path", .jobj
              [("type", .jstr "STRING"),
               ("description", .jstr "Path directory yang akan di-list (default: current directory)")])]),
           ("required", .jarr [])]
  else if func_name = "run_terminal" then
    .jobj [("type", .jstr "OBJECT"),
           ("properties", .jobj [("command", .jobj
              [("type", .jstr "STRING"),
               ("description", .jstr "Command terminal yang akan dijalankan (misal: \x27pip install requests\x27, \x27git status\x27)")])]),
           ("required", .jarr [.jstr "command"])]
  else if func_name = "search_files" then
    .jobj [("type", .jstr "OBJECT"),
           ("properties", .jobj
              [("pattern", .jobj [("type", .jstr "STRING"),
                 ("description", .jstr "Glob pattern untuk file (misal: \x27**/*.py\x27)")]),
               ("query", .jobj [("type", .jstr "STRING"),
                 ("description", .jstr "Text yang dicari di dalam file")])]),
           ("required", .jarr [.jstr "pattern", .jstr "query"])]
  else if func_name = "web_search" then
    .jobj [("type", .jstr "OBJECT"),
           ("properties", .jobj [("query", .jobj
              [("type", .jstr "STRING"),
               ("description", .jstr "Kata kunci pencarian")])]),
           ("required", .jarr [.jstr "query"])]
  else .jobj [("type", .jstr "OBJECT"), ("properties", .jobj [])]

/-- `ToolRegistry.get_tool_definitions`: local tools first (docstring or the
fixed fallback description, hand-written schema), then the definitions of
every *connected* MCP client, in registration order.  (The source wraps the
list as `\x7b"function_declarations": definitions\x7d`; we return the list.) -/
def get_tool_definitions (reg : Registry) : List ToolDef :=
  (reg.localTools.map fun t =>
    { name := t.name,
      description := if t.doc != "" then t.doc else "No description provided",
      parameters := get_params_schema t.name })
  ++ (reg.clients.filter (·.is_connected)).flatMap mcp_get_tool_definitions

/-- `SENSITIVE_TOOLS` in `ToolRegistry.execute`. -/
def SENSITIVE_TOOLS : List String := ["run_terminal", "write_file"]

/-- The first text-typed content item of a `tools/call` result
(`for item in result["content"]: if item["type"] == "text": return item["text"]`).
A text-typed item without a string `\x22text\x22` member would make the source
return a non-string or raise; that malformed corner is abstracted to the
`str(result)` fallback. -/
def firstTextItem : List JVal → Option String
  | [] => none
  | .jobj o :: rest =>
      match o.lookup "type" with
      | some (.jstr ty) =>
          if ty = "text" then
            match o.lookup "text" with
            | some (.jstr s) => some s
            | _ => none
          else firstTextItem rest
      | _ => firstTextItem rest
  | _ :: rest => firstTextItem rest

/-- How `ToolRegistry.execute` turns a `call_tool` result into the tool's
string result: on a truthy dict with a `\x22content\x22` list member, the first
text-typed item's text; otherwise `str(result)` (so a `None` from a timeout,
write failure, or error response becomes the string `\x22None\x22`). -/
def renderCallResult (result : Option JVal) : String :=
  match result with
  | some (.jobj o) =>
      if truthy (.jobj o) then
        match o.lookup "content" with
        | some (.jarr items) =>
            (match firstTextItem items with
             | some s => s
             | none => pyStrOfResult result)
        | _ => pyStrOfResult result
      else pyStrOfResult result
  | r => pyStrOfResult r

/-- What one `execute` call observably did. -/
structure ExecOutcome where
  result : String
  clients : List MCPState
  remoteCalls : List String
  prompts : Nat

/-- The remote-dispatch loop of `ToolRegistry.execute`
(`for client in self.mcp_clients: ...`): the first *connected* client whose
discovered tool list contains the name handles the call; under safe mode the
user is prompted first and a non-affirmative answer short-circuits to the
denied result without calling the child.  `none` means no connected client
provides the tool (fall through to not-found). -/
def execRemote (safeMode : Bool) (inputs : List String) (writeOk : Bool)
    (delivery : Option (List (String × JVal))) (name : String)
    (args : List (String × String)) :
    List MCPState → Option ExecOutcome
  | [] => none
  | c :: rest =>
      if c.is_connected && hasTool c name then
        if safeMode && (pyNormalize (inputs.headD "") != "y") then
          some { result := "Error: User denied execution.",
                 clients := c :: rest, remoteCalls := [], prompts := 1 }
        else
          some { result := renderCallResult (call_tool c writeOk delivery name args).2,
                 clients := (call_tool c writeOk delivery name args).1 :: rest,
                 remoteCalls := [name],
                 prompts := if safeMode then 1 else 0 }
      else
        match execRemote safeMode inputs writeOk delivery name args rest with
        | none => none
        | some out => some { out with clients := c :: out.clients }

/-- What one `ToolRegistry.execute` call observably did: the returned string,
the clients' states afterwards, which local implementations ran, which remote
tools were actually called on a child process, and how many confirmation
prompts were shown. -/
structure ExecResult where
  result : String
  clients : List MCPState
  localInvoked : List String
  remoteCalls : List String
  prompts : Nat

/-- `ToolRegistry.execute(tool_name, args)`.  `safeMode` is `config.SAFE_MODE`;
`inputs` are the user's successive `input()` answers (an exhausted list reads
as `\x22\x22`, which is non-affirmative); `localImpl` is the local implementation
table (`.error` is a raised exception's message, caught and formatted);
`writeOk`/`delivery` are the environment of the single remote call a dispatch
can make.  Order: the safe-mode gate for the fixed sensitive names, then
local tools by exact name, then the connected remote clients in registration
order, else the not-found error. -/
def execute (reg : Registry)
    (localImpl : String → List (String × String) → Except String String)
    (safeMode : Bool) (inputs : List String) (writeOk : Bool)
    (delivery : Option (List (String × JVal)))
    (tool_name : String) (args : List (String × String)) : ExecResult :=
  let gated := safeMode && SENSITIVE_TOOLS.contains tool_name
  if gated && (pyNormalize (inputs.headD "") != "y") then
    { result := "Error: User denied execution.", clients := reg.clients,
      localInvoked := [], remoteCalls := [], prompts := 1 }
  else
    let inputs1 := if gated then inputs.tail else inputs
    let p0 := if gated then 1 else 0
    if reg.localNames.contains tool_name then
      match localImpl tool_name args with
      | .ok s =>
          { result := s, clients := reg.clients, localInvoked := [tool_name],
            remoteCalls := [], prompts := p0 }
      | .error e =>
          { result := "Error executing " ++ tool_name ++ ": " ++ e,
            clients := reg.clients, localInvoked := [tool_name],
            remoteCalls := [], prompts := p0 }
    else
      match execRemote safeMode inputs1 writeOk delivery tool_name args reg.clients with
      | some out =>
          { result := out.result, clients := out.clients, localInvoked := [],
            remoteCalls := out.remoteCalls, prompts := p0 + out.prompts }
      | none =>
          { result := "Error: Tool \x27" ++ tool_name ++ "\x27 not found.",
            clients := reg.clients, localInvoked := [], remoteCalls := [],
            prompts := p0 }

/-! ## Concrete instances used as witnesses and counterexamples -/

/-- Whether the `initialize` request of a `connect` call succeeds with a
truthy result (the `if init_result:` test). -/
def initSucceeds (st : MCPState) (env : ConnectEnv) : Bool :=
  match (send_request { st with processAlive := true }
           env.initWriteOk env.initDelivery).2 with
  | some r => truthy r
  | none => false

/-- Whether the `_refresh_tools` step of a `connect` call raises while
parsing the `tools/list` result (evaluated at the client state `connect`
hands it: after the `initialize` request, with `is_connected` already
set). -/
def toolsListRaises (st : MCPState) (env : ConnectEnv) : Bool :=
  (refresh_tools
    { (send_request { st with processAlive := true }
        env.initWriteOk env.initDelivery).1 with is_connected := true }
    env.toolsWriteOk env.toolsDelivery).2

/-- A backend that always returns one function call and never a final
text. -/
def constFcBackend : List Content → GenResponse := fun _ =>
  { success := true, text := "", function_calls := [{ name := "t", args := [] }],
    thought_signature := none, error := none }

/-- A backend that returns one function call on the first round (history is
just the user turn) and reports failure on the next round. -/
def failRound2Backend : List Content → GenResponse := fun h =>
  if h.length ≤ 1 then
    { success := true, text := "", function_calls := [{ name := "t", args := [] }],
      thought_signature := none, error := none }
  else
    { success := false, text := "", function_calls := [],
      thought_signature := none, error := some "boom" }

/-- A backend that returns one `echo` call on the first round and a final
text on the next. -/
def oneCallBackend : List Content → GenResponse := fun h =>
  if h.length ≤ 1 then
    { success := true, text := "", function_calls := [{ name := "echo", args := [] }],
      thought_signature := none, error := none }
  else
    { success := true, text := "done", function_calls := [],
      thought_signature := none, error := none }

/-- A backend that fails at once. -/
def failBackend : List Content → GenResponse := fun _ =>
  { success := false, text := "", function_calls := [],
    thought_signature := none, error := some "boom" }

/-- A tool executor returning a fixed short result. -/
def okTool : String → List (String × String) → String := fun _ _ => "ok"

/-- A tool executor returning a 201-character result. -/
def longResultTool : String → List (String × String) → String :=
  fun _ _ => String.mk (List.replicate 201 'a')

/-- A local implementation table that always raises. -/
def noLocalImpl : String → List (String × String) → Except String String :=
  fun _ _ => .error "no such local tool"

/-- A connected client whose discovered tool list holds one tool,
`remote_echo`. -/
def echoClient : MCPState :=
  { request_id := 2, pending_requests := [],
    tools := [.jobj [("name", .jstr "remote_echo")]],
    is_connected := true, processAlive := true }

/-- A registry with one local tool and the connected `echoClient`. -/
def regRemote : Registry :=
  { localTools := [{ name := "read_file", doc := "Membaca isi file text." }],
    clients := [echoClient] }

/-- A registry whose only remote client is disconnected but advertises
`remote_echo`. -/
def regDisc : Registry :=
  { localTools := [{ name := "read_file", doc := "Membaca isi file text." }],
    clients := [{ echoClient with is_connected := false }] }

/-- A connect environment where the spawn and `initialize` succeed (truthy
result) but the `tools/list` request gets no response before the timeout. -/
def handshakeEnvToolsTimeout : ConnectEnv :=
  { spawnOk := true, initWriteOk := true,
    initDelivery := some [("jsonrpc", .jstr "2.0"), ("id", .jnum 1),
      ("result", .jobj [("capabilities", .jobj [("tools", .jobj [])])])],
    toolsWriteOk := true, toolsDelivery := none }

/-- A connect environment where the spawn and `initialize` succeed but the
`tools/list` response carries a truthy non-dict result (`"result": 5`), on
which `"tools" in result` raises a `TypeError`. -/
def handshakeEnvToolsMalformed : ConnectEnv :=
  { spawnOk := true, initWriteOk := true,
    initDelivery := some [("jsonrpc", .jstr "2.0"), ("id", .jnum 1),
      ("result", .jobj [("capabilities", .jobj [("tools", .jobj [])])])],
    toolsWriteOk := true,
    toolsDelivery := some [("jsonrpc", .jstr "2.0"), ("id", .jnum 2),
      ("result", .jnum 5)] }

/-! # Helper lemmas -/

theorem isEmpty_false_of_ne_nil {α : Type} {l : List α} (h : l ≠ []) :
    l.isEmpty = false := by
  cases l with
  | nil => exact absurd rfl h
  | cons a t => rfl

/-- One loop iteration when the backend reports failure: return the
formatted error at once, appending nothing. -/
theorem sendLoop_step_fail (backend : List Content → GenResponse)
    (toolExec : String → List (String × String) → String)
    (history : List Content) (streamed : List String) (mc fuel : Nat)
    (hs : (backend history).success = false) :
    sendLoop backend toolExec history streamed mc (fuel + 1) =
      { finalText := "Error: " ++ pyShow (backend history).error,
        history := history, streamed := streamed, modelCalls := mc + 1 } := by
  simp [sendLoop, hs]

/-- One loop iteration when the backend returns no function calls: append
the final model turn and return the text. -/
theorem sendLoop_step_final (backend : List Content → GenResponse)
    (toolExec : String → List (String × String) → String)
    (history : List Content) (streamed : List String) (mc fuel : Nat)
    (hs : (backend history).success = true)
    (hf : (backend history).function_calls = []) :
    sendLoop backend toolExec history streamed mc (fuel + 1) =
      { finalText := (backend history).text,
        history := history ++
          [{ role := "model", parts := [Part.text (backend history).text] }],
        streamed := streamed ++
          (if (backend history).text != "" then [(backend history).text] else []),
        modelCalls := mc + 1 } := by
  simp [sendLoop, hs, hf]

/-- One loop iteration when the backend returns function calls: append the
model turn and the tool-response user turn, then continue. -/
theorem sendLoop_step_fc (backend : List Content → GenResponse)
    (toolExec : String → List (String × String) → String)
    (history : List Content) (streamed : List String) (mc fuel : Nat)
    (hs : (backend history).success = true)
    (hf : (backend history).function_calls ≠ []) :
    sendLoop backend toolExec history streamed mc (fuel + 1) =
      sendLoop backend toolExec
        (history ++ [modelTurnOf (backend history),
                     toolResponseTurnOf toolExec (backend history).function_calls])
        ((streamed ++ (if (backend history).text != "" then [(backend history).text] else []))
          ++ roundStreams toolExec (backend history).function_calls)
        (mc + 1) fuel := by
  simp [sendLoop, hs, isEmpty_false_of_ne_nil hf]

theorem filterMap_partFunctionCall_map (sig : Option String)
    (fcs : List FunctionCall) :
    (fcs.map (fun fc => Part.functionCall fc sig)).filterMap partFunctionCall = fcs := by
  induction fcs with
  | nil => rfl
  | cons a t ih =>
      simp only [List.map_cons, List.filterMap_cons, partFunctionCall, ih]

theorem functionCallsOf_modelTurnOf (r : GenResponse) :
    functionCallsOf (modelTurnOf r) = r.function_calls := by
  show List.filterMap partFunctionCall
      ((if r.text != "" then [Part.text r.text] else []) ++
        r.function_calls.map (fun fc => Part.functionCall fc
          (if truthyStr r.thought_signature then r.thought_signature else none)))
    = r.function_calls
  rw [List.filterMap_append, filterMap_partFunctionCall_map]
  cases h : r.text != "" <;> simp [h, partFunctionCall]

theorem functionResponsesOf_toolResponseTurnOf
    (toolExec : String → List (String × String) → String)
    (fcs : List FunctionCall) :
    functionResponsesOf (toolResponseTurnOf toolExec fcs) =
      fcs.map (fun fc => (fc.name, toolExec fc.name fc.args)) := by
  induction fcs with
  | nil => rfl
  | cons a t ih =>
      simp only [functionResponsesOf, toolResponseTurnOf, List.map_cons,
        List.filterMap_cons, partFunctionResponse] at ih ⊢
      rw [ih]

/-- When every backend round returns function calls, the loop burns all its
fuel, returns the exhaustion message, makes one model call per fuel unit,
and appends one (model turn, user turn) pair per round. -/
theorem sendLoop_all_calls (backend : List Content → GenResponse)
    (toolExec : String → List (String × String) → String)
    (hb : ∀ h, (backend h).success = true ∧ (backend h).function_calls ≠ []) :
    ∀ (fuel : Nat) (history : List Content) (streamed : List String) (mc : Nat),
      (sendLoop backend toolExec history streamed mc fuel).finalText =
          "Error: Max tool execution turns reached." ∧
      (sendLoop backend toolExec history streamed mc fuel).modelCalls = mc + fuel ∧
      ∃ rounds : List (Content × Content),
        rounds.length = fuel ∧
        (∀ p ∈ rounds, p.1.role = "model" ∧ p.2.role = "user") ∧
        (sendLoop backend toolExec history streamed mc fuel).history =
          history ++ rounds.flatMap (fun p => [p.1, p.2]) := by
  intro fuel
  induction fuel with
  | zero =>
      intro history streamed mc
      exact ⟨by simp [sendLoop], by simp [sendLoop], [], rfl, by simp, by simp [sendLoop]⟩
  | succ n ih =>
      intro history streamed mc
      obtain ⟨hs, hf⟩ := hb history
      rw [sendLoop_step_fc backend toolExec history streamed mc n hs hf]
      obtain ⟨h1, h2, rounds, hlen, hroles, hhist⟩ := ih _ _ _
      refine ⟨h1, by rw [h2]; omega,
        (modelTurnOf (backend history),
         toolResponseTurnOf toolExec (backend history).function_calls) :: rounds,
        by simp [hlen], ?_, ?_⟩
      · intro p hp
        rcases List.mem_cons.mp hp with h | h
        · subst h; exact ⟨rfl, rfl⟩
        · exact hroles p h
      · rw [hhist]; simp

/-! # Claims -/

/-- **C1.** For every round of the `send_message` loop in which the model
returns a non-empty list of function calls, the engine appends a Model turn
containing one `functionCall` part per call and then, before the next model
call, appends exactly one user-role turn containing exactly one
`functionResponse` part per `functionCall` of that round, in the same order
as the calls were received. -/
theorem c1_call_response_correspondence (backend : List Content → GenResponse)
    (toolExec : String → List (String × String) → String)
    (history : List Content) (streamed : List String) (mc fuel : Nat)
    (hs : (backend history).success = true)
    (hf : (backend history).function_calls ≠ []) :
    ∃ (mt ut : Content) (streamed2 : List String),
      sendLoop backend toolExec history streamed mc (fuel + 1) =
        sendLoop backend toolExec (history ++ [mt, ut]) streamed2 (mc + 1) fuel ∧
      mt.role = "model" ∧ ut.role = "user" ∧
      functionCallsOf mt = (backend history).function_calls ∧
      ut.parts = (backend history).function_calls.map
        (fun fc => Part.functionResponse fc.name (toolExec fc.name fc.args)) ∧
      functionResponsesOf ut = (backend history).function_calls.map
        (fun fc => (fc.name, toolExec fc.name fc.args)) ∧
      (functionCallsOf mt).map FunctionCall.name =
        (functionResponsesOf ut).map Prod.fst := by
  refine ⟨modelTurnOf (backend history),
    toolResponseTurnOf toolExec (backend history).function_calls, _,
    sendLoop_step_fc backend toolExec history streamed mc fuel hs hf,
    rfl, rfl, functionCallsOf_modelTurnOf _, rfl,
    functionResponsesOf_toolResponseTurnOf _ _, ?_⟩
  rw [functionCallsOf_modelTurnOf, functionResponsesOf_toolResponseTurnOf]
  simp

/-- Witness for C1 at a concrete round. -/
theorem c1_call_response_correspondence_witness :
    ((constFcBackend [userTurnOf "hi" []]).success = true) ∧
    ((constFcBackend [userTurnOf "hi" []]).function_calls ≠ []) ∧
    (∃ (mt ut : Content) (streamed2 : List String),
      sendLoop constFcBackend okTool [userTurnOf "hi" []] [] 0 (0 + 1) =
        sendLoop constFcBackend okTool ([userTurnOf "hi" []] ++ [mt, ut]) streamed2 (0 + 1) 0 ∧
      mt.role = "model" ∧ ut.role = "user" ∧
      functionCallsOf mt = (constFcBackend [userTurnOf "hi" []]).function_calls ∧
      ut.parts = (constFcBackend [userTurnOf "hi" []]).function_calls.map
        (fun fc => Part.functionResponse fc.name (okTool fc.name fc.args)) ∧
      functionResponsesOf ut = (constFcBackend [userTurnOf "hi" []]).function_calls.map
        (fun fc => (fc.name, okTool fc.name fc.args)) ∧
      (functionCallsOf mt).map FunctionCall.name =
        (functionResponsesOf ut).map Prod.fst) :=
  ⟨rfl, by decide,
   c1_call_response_correspondence constFcBackend okTool [userTurnOf "hi" []] [] 0 0
     rfl (by decide)⟩

/-- **C2.** When the backend returns function calls on every round and never
a final text, `send_message` performs exactly 10 rounds (the `max_turns`
bound), makes no 11th model call, returns the fixed exhaustion message, and
leaves the history as the prior history plus the new user turn plus ten
(model turn, user turn) round pairs — still a valid history for the next
call. -/
theorem c2_max_turns_exhaustion (backend : List Content → GenResponse)
    (toolExec : String → List (String × String) → String)
    (history0 : List Content) (message : String) (media : List MediaItem)
    (hb : ∀ h, (backend h).success = true ∧ (backend h).function_calls ≠ []) :
    (send_message backend toolExec history0 message media).finalText =
        "Error: Max tool execution turns reached." ∧
    (send_message backend toolExec history0 message media).modelCalls = 10 ∧
    ∃ rounds : List (Content × Content),
      rounds.length = 10 ∧
      (∀ p ∈ rounds, p.1.role = "model" ∧ p.2.role = "user") ∧
      (send_message backend toolExec history0 message media).history =
        (history0 ++ [userTurnOf message media]) ++
          rounds.flatMap (fun p => [p.1, p.2]) := by
  have h := sendLoop_all_calls backend toolExec hb max_turns
    (history0 ++ [userTurnOf message media]) [] 0
  simpa [send_message, max_turns] using h

/-- Witness for C2: a backend that always calls one tool exhausts the
10-round budget. -/
theorem c2_max_turns_exhaustion_witness :
    (∀ h, (constFcBackend h).success = true ∧ (constFcBackend h).function_calls ≠ []) ∧
    ((send_message constFcBackend okTool [] "hi" []).finalText =
        "Error: Max tool execution turns reached." ∧
     (send_message constFcBackend okTool [] "hi" []).modelCalls = 10 ∧
     ∃ rounds : List (Content × Content),
       rounds.length = 10 ∧
       (∀ p ∈ rounds, p.1.role = "model" ∧ p.2.role = "user") ∧
       (send_message constFcBackend okTool [] "hi" []).history =
         ([] ++ [userTurnOf "hi" []]) ++ rounds.flatMap (fun p => [p.1, p.2])) :=
  ⟨fun _ => ⟨rfl, List.cons_ne_nil _ _⟩,
   c2_max_turns_exhaustion constFcBackend okTool [] "hi" []
     (fun _ => ⟨rfl, List.cons_ne_nil _ _⟩)⟩

set_option maxRecDepth 8192 in
/-- **C8 counterexample.** The claim says the preview streamed after a tool
runs is truncated to at most 200 characters; for a 201-character tool result
the streamed preview is its first 200 characters plus `"..."`, i.e. 203
characters. -/
theorem c8_counterexample :
    (send_message oneCallBackend longResultTool [] "go" []).streamed[1]? =
      some ("[Result: " ++ previewOf (String.mk (List.replicate 201 'a')) ++ "]\n") ∧
    (previewOf (String.mk (List.replicate 201 'a'))).length = 203 :=
  ⟨rfl, rfl⟩

/-- **C8 (amended).** The preview streamed for a tool result is the result
itself when it has at most 200 characters, and otherwise its first 200
characters followed by a 3-character ellipsis — hence at most 203 characters,
not 200. -/
theorem c8_preview_truncation (s : String) :
    (previewOf s).length ≤ 203 ∧
    (s.length ≤ 200 → previewOf s = s) ∧
    (200 < s.length → previewOf s = s.take 200 ++ "...") := by
  refine ⟨?_, ?_, ?_⟩
  · by_cases h : s.length > 200
    · rw [previewOf, if_pos h, String.length_append, String.take_eq]
      have h1 : (String.mk (s.1.take 200)).length = min 200 s.1.length := by
        show (s.1.take 200).length = _
        exact List.length_take ..
      have h2 : s.length = s.1.length := rfl
      have h3 : ("..." : String).length = 3 := rfl
      omega
    · rw [previewOf, if_neg h]
      omega
  · intro h
    rw [previewOf, if_neg (by omega)]
  · intro h
    rw [previewOf, if_pos h]

/-- **C9 counterexample.** The claim says a backend failure leaves no Model
turn appended for that `send_message` call; with a backend that issues a
function call on round one and fails on round two, the call returns the
formatted error but its history holds one model-role turn appended during
the call. -/
theorem c9_counterexample :
    (send_message failRound2Backend okTool [] "hi" []).finalText = "Error: boom" ∧
    (send_message failRound2Backend okTool [] "hi" []).history.countP
      (fun c => c.role == "model") = 1 :=
  ⟨rfl, rfl⟩

/-- **C9 (amended).** When the model backend reports failure on the *first*
round of a `send_message` call, the call returns the formatted error string
immediately after exactly one model call, and the history is exactly the
prior history plus the user turn appended at the start of the call — no
model turn is appended.  (When the failure happens on a later round, the
earlier rounds of the same call have already appended their model and user
turns, as the counterexample shows.) -/
theorem c9_backend_failure_first_round (backend : List Content → GenResponse)
    (toolExec : String → List (String × String) → String)
    (history0 : List Content) (message : String) (media : List MediaItem)
    (hfail : (backend (history0 ++ [userTurnOf message media])).success = false) :
    (send_message backend toolExec history0 message media).finalText =
      "Error: " ++ pyShow (backend (history0 ++ [userTurnOf message media])).error ∧
    (send_message backend toolExec history0 message media).history =
      history0 ++ [userTurnOf message media] ∧
    (send_message backend toolExec history0 message media).modelCalls = 1 := by
  have h := sendLoop_step_fail backend toolExec
    (history0 ++ [userTurnOf message media]) [] 0 9 hfail
  simp [send_message, show max_turns = 9 + 1 from rfl, h]

/-- Witness for the amended C9 at a concrete failing backend. -/
theorem c9_backend_failure_first_round_witness :
    ((failBackend ([] ++ [userTurnOf "hi" []])).success = false) ∧
    ((send_message failBackend okTool [] "hi" []).finalText =
       "Error: " ++ pyShow (failBackend ([] ++ [userTurnOf "hi" []])).error ∧
     (send_message failBackend okTool [] "hi" []).history =
       [] ++ [userTurnOf "hi" []] ∧
     (send_message failBackend okTool [] "hi" []).modelCalls = 1) :=
  ⟨rfl, c9_backend_failure_first_round failBackend okTool [] "hi" [] rfl⟩

/-! ## RPC client lemmas -/

theorem send_request_fields (st : MCPState) (w : Bool)
    (d : Option (List (String × JVal))) :
    (send_request st w d).1.request_id = st.request_id + 1 ∧
    (send_request st w d).1.is_connected = st.is_connected ∧
    (send_request st w d).1.processAlive = st.processAlive ∧
    (send_request st w d).1.tools = st.tools := by
  cases w <;> rcases d with _ | resp <;>
    simp [send_request, registerSlot, resolveSlot] <;> split <;> simp

theorem send_request_pending (st : MCPState) (w : Bool)
    (d : Option (List (String × JVal)))
    (hfresh : st.request_id + 1 ∉ st.pending_requests) :
    (send_request st w d).1.pending_requests =
      (if w = true ∧ d.isSome then st.pending_requests
       else st.pending_requests ++ [st.request_id + 1]) := by
  rcases d with _ | resp
  · cases w <;> simp [send_request, registerSlot, resolveSlot]
  · cases w
    · simp [send_request, registerSlot, resolveSlot]
    · simp [send_request, registerSlot, resolveSlot]
      split <;> simp [List.erase_append_right _ hfresh]

/-- **C4 counterexample.** The claim says the `pending_requests` entry is
removed in both resolution cases; after a timeout resolution
(`send_request initMCP true none`, no correlated response within the bound)
the entry for id 1 is still in the table. -/
theorem c4_counterexample :
    (send_request initMCP true none).1.pending_requests = [1] := rfl

/-- **C4 (amended).** For every request, a `pending_requests` entry for its
id is registered before the request bytes are written, and it is removed
exactly when a correlated response (success or error) is received; on
timeout — and likewise on a write failure — the entry is NOT removed and
remains in the table. -/
theorem c4_pending_slot_lifecycle (st : MCPState) (w : Bool)
    (d : Option (List (String × JVal)))
    (hfresh : st.request_id + 1 ∉ st.pending_requests) :
    ((registerSlot st).1 ∈ (registerSlot st).2.pending_requests) ∧
    (send_request st w d).1.pending_requests =
      (if w = true ∧ d.isSome then st.pending_requests
       else st.pending_requests ++ [st.request_id + 1]) :=
  ⟨by simp [registerSlot], send_request_pending st w d hfresh⟩

/-- Witness for the amended C4: a fresh client, a successful write and a
correlated (empty-object) response — the slot is registered and then
removed. -/
theorem c4_pending_slot_lifecycle_witness :
    (initMCP.request_id + 1 ∉ initMCP.pending_requests) ∧
    (((registerSlot initMCP).1 ∈ (registerSlot initMCP).2.pending_requests) ∧
     (send_request initMCP true (some [])).1.pending_requests =
       (if true = true ∧ (some [] : Option (List (String × JVal))).isSome
        then initMCP.pending_requests
        else initMCP.pending_requests ++ [initMCP.request_id + 1])) :=
  ⟨by simp [initMCP], c4_pending_slot_lifecycle initMCP true (some [])
    (by simp [initMCP])⟩

theorem refresh_tools_fields (st : MCPState) (w : Bool)
    (d : Option (List (String × JVal))) :
    (refresh_tools st w d).1.request_id = st.request_id + 1 ∧
    (refresh_tools st w d).1.is_connected = st.is_connected ∧
    (refresh_tools st w d).1.processAlive = st.processAlive := by
  obtain ⟨h1, h2, h3, _⟩ := send_request_fields st w d
  unfold refresh_tools
  repeat' split
  all_goals exact ⟨h1, h2, h3⟩

/-- The state and assigned ids of one `connect` call: the ids are the
consecutive integers following the prior `request_id`, which advances by
their number. -/
theorem connect_shape (st : MCPState) (env : ConnectEnv) :
    (connect st env).state.request_id = st.request_id + (connect st env).ids.length ∧
    (connect st env).ids =
      List.range' (st.request_id + 1) (connect st env).ids.length := by
  unfold connect
  cases hsp : env.spawnOk
  · simp
  · have hf := send_request_fields { st with processAlive := true }
      env.initWriteOk env.initDelivery
    rcases hres : (send_request { st with processAlive := true }
        env.initWriteOk env.initDelivery).2 with _ | r
    · simp only [hres, Bool.false_eq_true, if_false]
      exact ⟨hf.1, by simp [List.range'_one]⟩
    · cases htr : truthy r
      · simp only [hres, htr, Bool.false_eq_true, if_false]
        exact ⟨hf.1, by simp [List.range'_one]⟩
      · simp only [hres, htr, Bool.false_eq_true, if_false, if_true]
        have hrt := refresh_tools_fields
          { (send_request { st with processAlive := true }
              env.initWriteOk env.initDelivery).1 with is_connected := true }
          env.toolsWriteOk env.toolsDelivery
        have hrid : (refresh_tools
            { (send_request { st with processAlive := true }
                env.initWriteOk env.initDelivery).1 with is_connected := true }
            env.toolsWriteOk env.toolsDelivery).1.request_id =
            st.request_id + 2 := by
          rw [hrt.1]
          show (send_request { st with processAlive := true }
              env.initWriteOk env.initDelivery).1.request_id + 1 = _
          rw [hf.1]
        cases hraise : (refresh_tools
            { (send_request { st with processAlive := true }
                env.initWriteOk env.initDelivery).1 with is_connected := true }
            env.toolsWriteOk env.toolsDelivery).2 <;>
          simp only [hraise, Bool.false_eq_true, if_false, if_true] <;>
          exact ⟨by simpa using hrid,
            by simp [List.range'_succ, List.range'_one, hf.1, Nat.add_assoc]⟩

theorem runOp_ids (st : MCPState) (op : MCPOp) :
    (runOp st op).1.request_id = st.request_id + (runOp st op).2.length ∧
    (runOp st op).2 = List.range' (st.request_id + 1) (runOp st op).2.length := by
  cases op with
  | send w d =>
      exact ⟨(send_request_fields st w d).1, by simp [runOp, List.range'_one]⟩
  | connectOp env => simpa [runOp] using connect_shape st env

theorem runOps_ids (ops : List MCPOp) : ∀ st : MCPState,
    (runOps st ops).1.request_id = st.request_id + (runOps st ops).2.length ∧
    (runOps st ops).2 = List.range' (st.request_id + 1) (runOps st ops).2.length := by
  induction ops with
  | nil => intro st; simp [runOps]
  | cons op rest ih =>
      intro st
      obtain ⟨h1, h2⟩ := runOp_ids st op
      obtain ⟨h3, h4⟩ := ih (runOp st op).1
      have hlen : (runOps st (op :: rest)).2.length =
          (runOp st op).2.length + (runOps (runOp st op).1 rest).2.length := by
        simp [runOps]
      constructor
      · show (runOps (runOp st op).1 rest).1.request_id = _
        rw [h3, h1, hlen]
        omega
      · show (runOp st op).2 ++ (runOps (runOp st op).1 rest).2 =
          List.range' (st.request_id + 1) (runOps st (op :: rest)).2.length
        rw [hlen]
        conv_lhs => rw [h2, h4]
        have hshift : (runOp st op).1.request_id + 1 =
            st.request_id + 1 + (runOp st op).2.length := by omega
        rw [hshift, List.range'_append_1]
        congr 1
        omega

/-- **C5.** Over any sequence of operations (requests and reconnect
attempts) on one connection object starting from `__init__`, the assigned
request ids are exactly `1, 2, 3, …` in assignment order: strictly
increasing from 1, and never reused across the connection's lifetime. -/
theorem c5_request_ids_strictly_increasing (ops : List MCPOp) :
    (runOps initMCP ops).2 =
      List.range' 1 (runOps initMCP ops).2.length ∧
    (runOps initMCP ops).2.Pairwise (· < ·) := by
  obtain ⟨_, h2⟩ := runOps_ids ops initMCP
  refine ⟨h2, ?_⟩
  rw [h2]
  exact List.pairwise_lt_range' ..

/-- **C7 counterexample.** The claim says the connection is usable
(`is_connected` true, tools discoverable) only after `initialize`, the
initialized notification and `tools/list` all complete without error.  In
`handshakeEnvToolsTimeout` the `tools/list` request times out
(`toolsDelivery = none`), yet `connect` returns `True` with
`is_connected = true` and an empty discovered tool list: the flag is set
before the `tools/list` step completes. -/
theorem c7_counterexample :
    handshakeEnvToolsTimeout.toolsDelivery = none ∧
    (connect initMCP handshakeEnvToolsTimeout).ok = true ∧
    (connect initMCP handshakeEnvToolsTimeout).state.is_connected = true ∧
    (connect initMCP handshakeEnvToolsTimeout).state.tools = [] :=
  ⟨rfl, rfl, rfl, rfl⟩

/-- The `tools/list` raise corner of `connect`, concretely: a truthy
non-dict result (`"result": 5`) makes `_refresh_tools` raise, the caught
exception makes `connect` return `False` — with `is_connected` already
`true` and the tool list still empty. -/
theorem connect_toolsRaise_example :
    (connect initMCP handshakeEnvToolsMalformed).ok = false ∧
    (connect initMCP handshakeEnvToolsMalformed).state.is_connected = true ∧
    (connect initMCP handshakeEnvToolsMalformed).state.tools = [] :=
  ⟨rfl, rfl, rfl⟩

/-- **C7 (amended).** Starting from a non-connected client, `is_connected`
becomes `true` exactly when the spawn succeeds and the `initialize` request
yields a truthy result — after `initialize` and the initialized
notification, but regardless of the later `tools/list` outcome — while
`connect` returns `True` only when additionally parsing the `tools/list`
result does not raise: on a raise the caught exception makes `connect`
return `False` with `is_connected` left `true`. -/
theorem c7_connected_after_initialize (st : MCPState) (env : ConnectEnv)
    (h0 : st.is_connected = false) :
    (connect st env).ok =
      (env.spawnOk && initSucceeds st env && !toolsListRaises st env) ∧
    (connect st env).state.is_connected =
      (env.spawnOk && initSucceeds st env) := by
  unfold connect initSucceeds toolsListRaises
  cases hsp : env.spawnOk
  · simp [h0]
  · have hf := send_request_fields { st with processAlive := true }
      env.initWriteOk env.initDelivery
    rcases hres : (send_request { st with processAlive := true }
        env.initWriteOk env.initDelivery).2 with _ | r
    · simp only [hres, Bool.true_and]
      exact ⟨rfl, hf.2.1.trans h0⟩
    · cases htr : truthy r
      · simp only [hres, htr, Bool.true_and, Bool.false_eq_true, if_false]
        exact ⟨by simp, hf.2.1.trans h0⟩
      · simp only [hres, htr, Bool.true_and, if_true]
        have hrt := refresh_tools_fields
          { (send_request { st with processAlive := true }
              env.initWriteOk env.initDelivery).1 with is_connected := true }
          env.toolsWriteOk env.toolsDelivery
        cases hraise : (refresh_tools
            { (send_request { st with processAlive := true }
                env.initWriteOk env.initDelivery).1 with is_connected := true }
            env.toolsWriteOk env.toolsDelivery).2 <;>
          simp [hraise, hrt.2.1]

/-! ## Tool registry lemmas -/

theorem execRemote_not_found (safeMode : Bool) (inputs : List String) (w : Bool)
    (d : Option (List (String × JVal))) (name : String)
    (args : List (String × String)) :
    ∀ clients : List MCPState,
      (∀ c ∈ clients, ¬(c.is_connected = true ∧ hasTool c name = true)) →
      execRemote safeMode inputs w d name args clients = none := by
  intro clients
  induction clients with
  | nil => intro _; rfl
  | cons c rest ih =>
      intro h
      have hc : (c.is_connected && hasTool c name) = false := by
        have hh := h c (List.mem_cons_self c rest)
        cases hcon : c.is_connected <;> cases hht : hasTool c name <;> simp_all
      simp only [execRemote, hc, Bool.false_eq_true, if_false]
      rw [ih (fun c' h' => h c' (List.mem_cons_of_mem _ h'))]

/-- The remote dispatch resolves at the first connected client providing the
tool: a safe-mode denial short-circuits with every client untouched, an
allowed call invokes `call_tool` on that client alone. -/
theorem execRemote_first (safeMode : Bool) (inputs : List String) (w : Bool)
    (d : Option (List (String × JVal))) (name : String)
    (args : List (String × String)) (pre : List MCPState) (c : MCPState)
    (post : List MCPState)
    (hpre : ∀ c' ∈ pre, ¬(c'.is_connected = true ∧ hasTool c' name = true))
    (hc : c.is_connected = true) (hct : hasTool c name = true) :
    execRemote safeMode inputs w d name args (pre ++ c :: post) =
      (if safeMode && (pyNormalize (inputs.headD "") != "y") then
        some { result := "Error: User denied execution.",
               clients := pre ++ c :: post, remoteCalls := [], prompts := 1 }
      else
        some { result := renderCallResult (call_tool c w d name args).2,
               clients := pre ++ (call_tool c w d name args).1 :: post,
               remoteCalls := [name],
               prompts := if safeMode then 1 else 0 }) := by
  induction pre with
  | nil =>
      simp only [List.nil_append, execRemote, hc, hct, Bool.and_self, if_true]
  | cons c0 pre ih =>
      have hc0 : (c0.is_connected && hasTool c0 name) = false := by
        have hh := hpre c0 (List.mem_cons_self c0 pre)
        cases hcon : c0.is_connected <;> cases hht : hasTool c0 name <;> simp_all
      have ih2 := ih (fun c' h' => hpre c' (List.mem_cons_of_mem _ h'))
      simp only [List.cons_append, execRemote, hc0, Bool.false_eq_true, if_false,
        List.append_eq]
      rw [ih2]
      cases hsd : (safeMode && (pyNormalize (inputs.headD "") != "y")) <;>
        simp [hsd]

/-- **C3.** With safe-mode enabled and a name classified Sensitive — locally
`run_terminal`/`write_file`, remotely any tool provided by a connected
client (not shadowed by a local tool) — a non-affirmative confirmation makes
`execute` return exactly the fixed user-denied result, with no local
implementation invoked, no remote call made, and every client state
untouched; contrapositively, the underlying implementation runs only after
an affirmative confirmation. -/
theorem c3_safe_mode_denial (reg : Registry)
    (localImpl : String → List (String × String) → Except String String)
    (inputs : List String) (w : Bool) (d : Option (List (String × JVal)))
    (name : String) (args : List (String × String))
    (hdeny : pyNormalize (inputs.headD "") ≠ "y")
    (hsens : SENSITIVE_TOOLS.contains name = true ∨
      (reg.localNames.contains name = false ∧
       ∃ pre c post, reg.clients = pre ++ c :: post ∧
         (∀ c' ∈ pre, ¬(c'.is_connected = true ∧ hasTool c' name = true)) ∧
         c.is_connected = true ∧ hasTool c name = true)) :
    (execute reg localImpl true inputs w d name args).result =
        "Error: User denied execution." ∧
    (execute reg localImpl true inputs w d name args).localInvoked = [] ∧
    (execute reg localImpl true inputs w d name args).remoteCalls = [] ∧
    (execute reg localImpl true inputs w d name args).clients = reg.clients := by
  have hdb : (pyNormalize (inputs.headD "") != "y") = true := by
    simpa using hdeny
  have hdeny2 : ¬(pyNormalize (inputs.head?.getD "") = "y") := by
    simpa using hdeny
  rcases hsens with hs | ⟨hl, pre, c, post, hcl, hpre, hc, hct⟩
  · have hs2 : name ∈ SENSITIVE_TOOLS := by simpa using hs
    simp [execute, hs2, hdeny2]
  · have hl2 : name ∉ reg.localNames := by simpa using hl
    by_cases hsn : name ∈ SENSITIVE_TOOLS
    · simp [execute, hsn, hdeny2]
    · have hfirst := execRemote_first true inputs w d name args pre c post hpre hc hct
      rw [if_pos (by simpa using hdeny2)] at hfirst
      simp [execute, hsn, hl2, hcl, hfirst]

/-- Witness for C3: safe mode on, the remote tool `remote_echo` of the
connected client, answer `"n"`. -/
theorem c3_safe_mode_denial_witness :
    (pyNormalize (["n"].headD "") ≠ "y") ∧
    ((execute regRemote noLocalImpl true ["n"] true none "remote_echo" []).result =
        "Error: User denied execution." ∧
     (execute regRemote noLocalImpl true ["n"] true none "remote_echo" []).localInvoked = [] ∧
     (execute regRemote noLocalImpl true ["n"] true none "remote_echo" []).remoteCalls = [] ∧
     (execute regRemote noLocalImpl true ["n"] true none "remote_echo" []).clients =
        regRemote.clients) :=
  ⟨by decide,
   c3_safe_mode_denial regRemote noLocalImpl ["n"] true none "remote_echo" []
     (by decide)
     (Or.inr ⟨rfl, [], echoClient, [], rfl,
       fun c' h' => absurd h' (List.not_mem_nil c'), rfl, rfl⟩)⟩

/-- **C6.** For a remote tool call on which the child process never delivers
a correlated response, the wait resolves (within the fixed
`REQUEST_TIMEOUT_SECONDS = 10` bound) with the `None` timeout outcome, which
the registry passes through — stringified, as it does every non-content
result — as the tool's result; exactly one remote call was made, and the
handling client keeps its process, connection flag and tool list: no
teardown on a single timeout. -/
theorem c6_remote_timeout (reg : Registry)
    (localImpl : String → List (String × String) → Except String String)
    (safeMode : Bool) (inputs : List String)
    (name : String) (args : List (String × String))
    (pre : List MCPState) (c : MCPState) (post : List MCPState)
    (hcl : reg.clients = pre ++ c :: post)
    (hpre : ∀ c' ∈ pre, ¬(c'.is_connected = true ∧ hasTool c' name = true))
    (hc : c.is_connected = true) (hct : hasTool c name = true)
    (hlocal : reg.localNames.contains name = false)
    (hsens : SENSITIVE_TOOLS.contains name = false)
    (hgo : safeMode = false ∨ pyNormalize (inputs.headD "") = "y") :
    REQUEST_TIMEOUT_SECONDS = 10 ∧
    (execute reg localImpl safeMode inputs true none name args).result =
      pyStrOfResult none ∧
    pyStrOfResult none = "None" ∧
    (execute reg localImpl safeMode inputs true none name args).remoteCalls = [name] ∧
    (execute reg localImpl safeMode inputs true none name args).clients =
      pre ++ (send_request c true none).1 :: post ∧
    (send_request c true none).1.processAlive = c.processAlive ∧
    (send_request c true none).1.is_connected = c.is_connected ∧
    (send_request c true none).1.tools = c.tools := by
  have hsens2 : name ∉ SENSITIVE_TOOLS := by simpa using hsens
  have hlocal2 : name ∉ reg.localNames := by simpa using hlocal
  have hcond : (safeMode && (pyNormalize (inputs.headD "") != "y")) = false := by
    rcases hgo with h | h
    · simp [h]
    · have h2 : pyNormalize (inputs.head?.getD "") = "y" := by simpa using h
      simp [h2]
  have hfirst := execRemote_first safeMode inputs true none name args pre c post hpre hc hct
  rw [if_neg (fun hh => by rw [hcond] at hh; exact Bool.false_ne_true hh)] at hfirst
  have hfields := send_request_fields c true none
  have hsnd : (send_request c true none).2 = none := rfl
  refine ⟨rfl, ?_, rfl, ?_, ?_, hfields.2.2.1, hfields.2.1, hfields.2.2.2⟩ <;>
    simp [execute, hsens2, hlocal2, hcl, hfirst, call_tool, hsnd, renderCallResult]

/-- Witness for C6: safe mode off, the connected client's `remote_echo`,
write succeeds, no response before the timeout. -/
theorem c6_remote_timeout_witness :
    ((regRemote.clients = [] ++ echoClient :: []) ∧
     echoClient.is_connected = true ∧ hasTool echoClient "remote_echo" = true) ∧
    (REQUEST_TIMEOUT_SECONDS = 10 ∧
     (execute regRemote noLocalImpl false [] true none "remote_echo" []).result =
       pyStrOfResult none ∧
     pyStrOfResult none = "None" ∧
     (execute regRemote noLocalImpl false [] true none "remote_echo" []).remoteCalls =
       ["remote_echo"] ∧
     (execute regRemote noLocalImpl false [] true none "remote_echo" []).clients =
       [] ++ (send_request echoClient true none).1 :: [] ∧
     (send_request echoClient true none).1.processAlive = echoClient.processAlive ∧
     (send_request echoClient true none).1.is_connected = echoClient.is_connected ∧
     (send_request echoClient true none).1.tools = echoClient.tools) :=
  ⟨⟨rfl, rfl, rfl⟩,
   c6_remote_timeout regRemote noLocalImpl false [] "remote_echo" []
     [] echoClient [] rfl (fun c' h' => absurd h' (List.not_mem_nil c'))
     rfl rfl rfl rfl (Or.inl rfl)⟩

/-- **C10.** Tools that only a disconnected remote connection provides are
invisible: `get_tool_definitions` exports no definition bearing their name,
and `execute` on such a name returns the tool-not-found error without
invoking anything or contacting any child process, leaving every client
untouched. -/
theorem c10_disconnected_tools_invisible (reg : Registry)
    (localImpl : String → List (String × String) → Except String String)
    (safeMode : Bool) (inputs : List String) (w : Bool)
    (d : Option (List (String × JVal)))
    (name : String) (args : List (String × String))
    (hname : name ≠ "")
    (hlocal : reg.localNames.contains name = false)
    (hconn : ∀ c ∈ reg.clients, c.is_connected = true → hasTool c name = false)
    (hdisc : ∃ c ∈ reg.clients, c.is_connected = false ∧ hasTool c name = true)
    (hsens : SENSITIVE_TOOLS.contains name = false) :
    (∀ td ∈ get_tool_definitions reg, td.name ≠ name) ∧
    (execute reg localImpl safeMode inputs w d name args).result =
      "Error: Tool \x27" ++ name ++ "\x27 not found." ∧
    (execute reg localImpl safeMode inputs w d name args).remoteCalls = [] ∧
    (execute reg localImpl safeMode inputs w d name args).localInvoked = [] ∧
    (execute reg localImpl safeMode inputs w d name args).clients = reg.clients := by
  have hlocal' : name ∉ reg.localNames := by
    intro hmem
    have h := List.elem_eq_true_of_mem hmem
    rw [show reg.localNames.contains name = reg.localNames.elem name from rfl, h] at hlocal
    exact absurd hlocal (by simp)
  constructor
  · intro td htd
    rcases List.mem_append.mp htd with hloc | hrem
    · obtain ⟨t, ht, rfl⟩ := List.mem_map.mp hloc
      intro hEq
      apply hlocal'
      rw [← hEq]
      exact List.mem_map_of_mem LocalTool.name ht
    · obtain ⟨cst, hcstmem, htdin⟩ := List.mem_flatMap.mp hrem
      obtain ⟨t, htin, rfl⟩ := List.mem_map.mp htdin
      have hcst := List.mem_filter.mp hcstmem
      have hno : hasTool cst name = false :=
        hconn cst hcst.1 (by simpa using hcst.2)
      simp only [hasTool] at hno
      intro hEq
      have hEq' : (toolName t).getD "" = name := hEq
      have hne : toolName t ≠ some name := by
        intro hsome
        have hfa := List.any_eq_false.mp hno t htin
        rw [hsome] at hfa
        simp at hfa
      rcases htn : toolName t with _ | s
      · rw [htn] at hEq'
        exact hname (by simpa using hEq'.symm)
      · rw [htn] at hEq'
        simp at hEq'
        exact hne (by rw [htn, hEq'])
  · have hsens2 : name ∉ SENSITIVE_TOOLS := by simpa using hsens
    have hforall : ∀ c ∈ reg.clients, ¬(c.is_connected = true ∧ hasTool c name = true) := by
      rintro c hcm ⟨h1, h2⟩
      rw [hconn c hcm h1] at h2
      exact Bool.false_ne_true h2
    have hnone := execRemote_not_found safeMode inputs w d name args reg.clients hforall
    refine ⟨?_, ?_, ?_, ?_⟩ <;> simp [execute, hsens2, hlocal', hnone]

/-- Witness for C10: `regDisc` advertises `remote_echo` only on a
disconnected client. -/
theorem c10_disconnected_tools_invisible_witness :
    ("remote_echo" ≠ "" ∧
     regDisc.localNames.contains "remote_echo" = false ∧
     (∀ c ∈ regDisc.clients, c.is_connected = true → hasTool c "remote_echo" = false) ∧
     (∃ c ∈ regDisc.clients, c.is_connected = false ∧ hasTool c "remote_echo" = true) ∧
     SENSITIVE_TOOLS.contains "remote_echo" = false) ∧
    ((∀ td ∈ get_tool_definitions regDisc, td.name ≠ "remote_echo") ∧
     (execute regDisc noLocalImpl true [] true none "remote_echo" []).result =
       "Error: Tool \x27remote_echo\x27 not found." ∧
     (execute regDisc noLocalImpl true [] true none "remote_echo" []).remoteCalls = [] ∧
     (execute regDisc noLocalImpl true [] true none "remote_echo" []).localInvoked = [] ∧
     (execute regDisc noLocalImpl true [] true none "remote_echo" []).clients =
       regDisc.clients) :=
  ⟨⟨by decide, rfl, by decide,
    ⟨{ echoClient with is_connected := false }, by simp [regDisc], rfl, rfl⟩,
    rfl⟩,
   c10_disconnected_tools_invisible regDisc noLocalImpl true [] true none
     "remote_echo" [] (by decide) rfl (by decide)
     ⟨{ echoClient with is_connected := false }, by simp [regDisc], rfl, rfl⟩
     rfl⟩

/-- Witness for the amended C7: the fresh client with a successful
initialize and a timed-out `tools/list`. -/
theorem c7_connected_after_initialize_witness :
    (initMCP.is_connected = false) ∧
    ((connect initMCP handshakeEnvToolsTimeout).ok =
       (handshakeEnvToolsTimeout.spawnOk &&
         initSucceeds initMCP handshakeEnvToolsTimeout &&
         !toolsListRaises initMCP handshakeEnvToolsTimeout) ∧
     (connect initMCP handshakeEnvToolsTimeout).state.is_connected =
       (handshakeEnvToolsTimeout.spawnOk &&
         initSucceeds initMCP handshakeEnvToolsTimeout)) :=
  ⟨rfl, c7_connected_after_initialize initMCP handshakeEnvToolsTimeout rfl⟩

end GeminiCli
